import Mathlib

/-!
Shallow embedding of sync_time_precise.py (Arduino data-logger time
synchronization). Pure Python string operations are modelled over
String / List Char; the serial link and the wall clock are modelled as
explicit finite streams of observations consumed by the session, and
Python exceptions raised by the underlying I/O layer are modelled with
Except. Lines arriving from the device are modelled after decode and
strip, as the code only ever inspects them in that form.
-/

/-- Model of Python str.upper restricted to ASCII text, which is all the
code compares (the seven identifiers are ASCII). -/
def pyUpper (s : String) : String := String.mk (List.map Char.toUpper s.data)

/-- Model of Python str.startswith: the second string is a prefix of the
first. -/
def pyStartsWith (s pre : String) : Bool := decide (pre.data <+: s.data)

/-- Model of the Python substring test sub in s: contiguous substring. -/
def pyContains (s sub : String) : Bool := decide (sub.data <:+: s.data)

/-- A serial port descriptor as returned by serial.tools.list_ports:
device path, description, optional manufacturer. -/
structure PortDesc where
  device : String
  description : String
  manufacturer : Option String
deriving Repr, DecidableEq

/-- The fixed identifier list from find_arduino_port. -/
def arduino_identifiers : List String :=
  ["Arduino", "USB-SERIAL", "USB Serial", "CH340", "FTDI", "ttyACM", "ttyUSB"]

/-- The combined string built per port:
(device ++ " " ++ description ++ " " ++ (manufacturer or "")).upper(). -/
def port_info (p : PortDesc) : String :=
  pyUpper (p.device ++ " " ++ p.description ++ " " ++ p.manufacturer.getD "")

/-- The inner loop of find_arduino_port: some identifier, uppercased,
occurs in the combined port string. -/
def portMatches (p : PortDesc) : Bool :=
  List.any arduino_identifiers (fun ident => pyContains (port_info p) (pyUpper ident))

/-- find_arduino_port: first matching port wins, None when nothing
matches. -/
def find_arduino_port : List PortDesc → Option String
  | [] => none
  | p :: rest => if portMatches p then some p.device else find_arduino_port rest

/-- A Python datetime value (naive fields; datetime keeps
0 <= microsecond < 1000000). -/
structure PyDatetime where
  year : Nat
  month : Nat
  day : Nat
  hour : Nat
  minute : Nat
  second : Nat
  microsecond : Nat
deriving Repr, DecidableEq

/-- Gregorian leap-year rule, as used by Python datetime arithmetic. -/
def isLeapYear (y : Nat) : Bool := (y % 4 == 0 && y % 100 != 0) || y % 400 == 0

/-- Days in a month of a given year. -/
def daysInMonth (y m : Nat) : Nat :=
  if m == 2 then (if isLeapYear y then 29 else 28)
  else if m == 4 || m == 6 || m == 9 || m == 11 then 30
  else 31

/-- Model of sync_time + datetime.timedelta(seconds=1): one second of
calendar arithmetic with full rollover. -/
def addOneSecond (d : PyDatetime) : PyDatetime :=
  if d.second < 59 then ⟨d.year, d.month, d.day, d.hour, d.minute, d.second + 1, d.microsecond⟩
  else if d.minute < 59 then ⟨d.year, d.month, d.day, d.hour, d.minute + 1, 0, d.microsecond⟩
  else if d.hour < 23 then ⟨d.year, d.month, d.day, d.hour + 1, 0, 0, d.microsecond⟩
  else if d.day < daysInMonth d.year d.month then
    ⟨d.year, d.month, d.day + 1, 0, 0, 0, d.microsecond⟩
  else if d.month < 12 then ⟨d.year, d.month + 1, 1, 0, 0, 0, d.microsecond⟩
  else ⟨d.year + 1, 1, 1, 0, 0, 0, d.microsecond⟩

/-- Python format spec 02d: left pad with zeros to width two (wider
numbers keep all their digits). -/
def fmt02 (n : Nat) : String := if n < 10 then "0" ++ Nat.repr n else Nat.repr n

/-- The outbound time command f-string sent to the device. -/
def timeCommand (d : PyDatetime) : String :=
  "SYNC_TIME:" ++ Nat.repr d.year ++ "," ++ fmt02 d.month ++ "," ++ fmt02 d.day ++ ","
    ++ fmt02 d.hour ++ "," ++ fmt02 d.minute ++ "," ++ fmt02 d.second ++ "\n"

/-- Exactly two decimal digits with a leading zero: the rendering the
specification describes for month, day, hour, minute and second. -/
def twoDigits (n : Nat) : String := String.mk [Nat.digitChar (n / 10), Nat.digitChar (n % 10)]

/-- The inner boundary loop, consuming one clock reading per iteration:
while datetime.now().microsecond > 100000 sleep 1 ms. Returns the reading
that terminated the loop and the remaining stream, or none when the
stream ends before the loop exits. -/
def innerWait : List PyDatetime → Option (PyDatetime × List PyDatetime)
  | [] => none
  | d :: rest => if d.microsecond > 100000 then innerWait rest else some (d, rest)

/-- The outer boundary loop: poll every 100 ms until a reading has
microsecond >= 900000, run the inner loop, then take one more reading as
sync_time. Returns that sampled sync_time and the remaining stream. -/
def boundaryPoll : List PyDatetime → Option (PyDatetime × List PyDatetime)
  | [] => none
  | d :: rest =>
    if d.microsecond ≥ 900000 then
      match innerWait rest with
      | some (_, t :: rest2) => some (t, rest2)
      | _ => none
    else boundaryPoll rest

/-- Python exceptions relevant to the session: serial.SerialException
and every other Exception. -/
inductive PyExn where
  | serialExn (msg : String)
  | otherExn (msg : String)
deriving Repr, DecidableEq

/-- One iteration of a serial read loop observes: a decoded stripped
line, nothing waiting, or an exception raised by the read. -/
inductive Ev where
  | line (s : String)
  | quiet
  | exn (isSerial : Bool) (msg : String)
deriving Repr, DecidableEq

/-- The exception an exn event raises. -/
def evExn (b : Bool) (m : String) : PyExn :=
  if b then PyExn.serialExn m else PyExn.otherExn m

/-- The RTC confirmation loop (2 s window, fuel counts iterations):
read lines until one begins with RTC: or the window expires. Exceptions
propagate out of the loop. -/
def rtcScanE : Nat → List Ev → Except PyExn (Option String)
  | 0, _ => Except.ok none
  | _ + 1, [] => Except.ok none
  | n + 1, Ev.quiet :: rest => rtcScanE n rest
  | _ + 1, Ev.exn b m :: _ => Except.error (evExn b m)
  | n + 1, Ev.line s :: rest =>
    if pyStartsWith s "RTC:" then Except.ok (some s) else rtcScanE n rest

/-- The response loop after the command is written, inside the try
block. The event list is the sequence of poll observations before the
response deadline; its end is the timeout. Returns the result of the
try body (or the propagating exception) together with a flag recording
whether ser.close() ran before leaving the loop. -/
def respLoopE (rtcFuel : Nat) : List Ev → Except PyExn Bool × Bool
  | [] => (Except.ok false, true)
  | Ev.quiet :: rest => respLoopE rtcFuel rest
  | Ev.exn b m :: _ => (Except.error (evExn b m), false)
  | Ev.line s :: rest =>
    if pyStartsWith s "TIME_SYNCED:" then
      if pyContains s "OK" then
        match rtcScanE rtcFuel rest with
        | Except.error e => (Except.error e, false)
        | Except.ok _ => (Except.ok true, true)
      else (Except.ok false, true)
    else respLoopE rtcFuel rest

/-- What a finished session did: the boolean it returned, whether the
serial connection was opened, whether it was closed before returning,
and the command written to the device, if any. -/
structure SyncOutcome where
  result : Bool
  opened : Bool
  closed : Bool
  sent : Option String
deriving Repr, DecidableEq

/-- A session run either finishes with an outcome or is still inside
the boundary polling loop when its clock stream runs out. -/
inductive SyncRun where
  | diverge
  | done (o : SyncOutcome)
deriving Repr, DecidableEq

/-- sync_precise_time_to_arduino: open (openFail models serial.Serial
raising), settle, flush, poll the clock stream for a second boundary,
write the compensated time command, then run the response loop. The
two except clauses turn any exception from the try body into a plain
False return, without closing the port. -/
def sync_precise_time_to_arduino (openFail : Option PyExn) (clocks : List PyDatetime)
    (evs : List Ev) (rtcFuel : Nat) : SyncRun :=
  match openFail with
  | some _ => SyncRun.done ⟨false, false, false, none⟩
  | none =>
    match boundaryPoll clocks with
    | none => SyncRun.diverge
    | some (t, _) =>
      let cmd := timeCommand (addOneSecond t)
      match respLoopE rtcFuel evs with
      | (Except.ok b, closed) => SyncRun.done ⟨b, true, closed, some cmd⟩
      | (Except.error _, closed) => SyncRun.done ⟨false, true, closed, some cmd⟩

/-- Python truthiness of the port variable: None and the empty string
are falsy. -/
def strTruthy : Option String → Bool
  | none => false
  | some s => !(s == "")

/-- The main entry point modelled down to its exit code: some 0 or
some 1, none when the session never leaves the boundary loop.
list-ports returns immediately (exit 0); a missing port after
auto-detection exits 1; otherwise the session result decides. -/
def mainExitCode (listPorts : Bool) (portArg : Option String) (ports : List PortDesc)
    (openFail : Option PyExn) (clocks : List PyDatetime) (evs : List Ev)
    (rtcFuel : Nat) : Option Nat :=
  if listPorts then some 0
  else
    let port := if strTruthy portArg then portArg else find_arduino_port ports
    if strTruthy port = false then some 1
    else
      match sync_precise_time_to_arduino openFail clocks evs rtcFuel with
      | SyncRun.diverge => none
      | SyncRun.done o => some (if o.result then 0 else 1)

/-- An event the response loop skips without consequence: nothing
waiting, or a line that does not begin with TIME_SYNCED:. -/
def inertEv : Ev → Bool
  | Ev.quiet => true
  | Ev.line s => !(pyStartsWith s "TIME_SYNCED:")
  | Ev.exn _ _ => false

/-- An event that raises no exception. -/
def noExnEv : Ev → Bool
  | Ev.exn _ _ => false
  | _ => true

/-- A concrete clock stream crossing the boundary at second 0 with a
50 ms fraction; the compensated command then carries second 1. -/
def cexClocks : List PyDatetime :=
  [⟨2024, 1, 1, 0, 0, 0, 950000⟩, ⟨2024, 1, 1, 0, 0, 0, 50000⟩, ⟨2024, 1, 1, 0, 0, 0, 50000⟩]

/-- A concrete clock stream whose post-boundary sample sits exactly at
the 100000 microsecond threshold. -/
def c3Clocks : List PyDatetime :=
  [⟨2024, 1, 1, 0, 0, 0, 950000⟩, ⟨2024, 1, 1, 0, 0, 1, 100000⟩, ⟨2024, 1, 1, 0, 0, 1, 100000⟩]

example : pyContains "TIME_SYNCED:ERR OK" "OK" = true := by decide
example : pyStartsWith "TIME_SYNCED:ERR OK" "TIME_SYNCED:ERR" = true := by decide
example : find_arduino_port [⟨"/dev/ttyACM0", "Arduino Uno", some "Arduino"⟩] = some "/dev/ttyACM0" := by decide

lemma rtcScanE_ok_of_noExn (f : Nat) (evs : List Ev) (h : ∀ e ∈ evs, noExnEv e = true) :
    ∃ r, rtcScanE f evs = Except.ok r := by
  induction evs generalizing f with
  | nil => cases f <;> exact ⟨none, rfl⟩
  | cons e rest ih =>
    cases f with
    | zero => exact ⟨none, rfl⟩
    | succ n =>
      have hrest : ∀ x ∈ rest, noExnEv x = true :=
        fun x hx => h x (List.mem_cons_of_mem _ hx)
      cases e with
      | quiet => exact ih n hrest
      | exn b m =>
        have := h _ (List.mem_cons_self _ _)
        simp [noExnEv] at this
      | line s =>
        by_cases hrtc : pyStartsWith s "RTC:" = true
        · exact ⟨some s, by simp [rtcScanE, hrtc]⟩
        · obtain ⟨r, hr⟩ := ih n hrest
          exact ⟨r, by simp [rtcScanE, hrtc, hr]⟩

lemma respLoopE_append_inert (pre : List Ev) (hpre : ∀ e ∈ pre, inertEv e = true)
    (f : Nat) (evs : List Ev) : respLoopE f (pre ++ evs) = respLoopE f evs := by
  induction pre with
  | nil => rfl
  | cons e rest ih =>
    have he := hpre e (List.mem_cons_self _ _)
    have hrest : ∀ x ∈ rest, inertEv x = true :=
      fun x hx => hpre x (List.mem_cons_of_mem _ hx)
    cases e with
    | quiet => simpa [respLoopE] using ih hrest
    | line s =>
      have hs : pyStartsWith s "TIME_SYNCED:" = false := by simpa [inertEv] using he
      simpa [respLoopE, hs] using ih hrest
    | exn b m => simp [inertEv] at he

lemma respLoopE_first_line (f : Nat) (s : String) (rest : List Ev)
    (hs : pyStartsWith s "TIME_SYNCED:" = true) :
    (pyContains s "OK" = false → respLoopE f (Ev.line s :: rest) = (Except.ok false, true)) ∧
    (pyContains s "OK" = true → (∀ e ∈ rest, noExnEv e = true) →
      respLoopE f (Ev.line s :: rest) = (Except.ok true, true)) := by
  constructor
  · intro hok
    simp [respLoopE, hs, hok]
  · intro hok hrest
    obtain ⟨r, hr⟩ := rtcScanE_ok_of_noExn f rest hrest
    simp [respLoopE, hs, hok, hr]

lemma respLoopE_ok_of_noExn (f : Nat) (evs : List Ev) (h : ∀ e ∈ evs, noExnEv e = true) :
    ∃ b, respLoopE f evs = (Except.ok b, true) := by
  induction evs with
  | nil => exact ⟨false, rfl⟩
  | cons e rest ih =>
    have hrest : ∀ x ∈ rest, noExnEv x = true :=
      fun x hx => h x (List.mem_cons_of_mem _ hx)
    cases e with
    | quiet => simpa [respLoopE] using ih hrest
    | exn b m =>
      have := h _ (List.mem_cons_self _ _)
      simp [noExnEv] at this
    | line s =>
      by_cases hts : pyStartsWith s "TIME_SYNCED:" = true
      · by_cases hok : pyContains s "OK" = true
        · obtain ⟨r, hr⟩ := rtcScanE_ok_of_noExn f rest hrest
          exact ⟨true, by simp [respLoopE, hts, hok, hr]⟩
        · exact ⟨false, by simp [respLoopE, hts, hok]⟩
      · obtain ⟨b, hb⟩ := ih hrest
        exact ⟨b, by simpa [respLoopE, hts] using hb⟩

lemma contains_of_startsWith_ok (s : String) (h : pyStartsWith s "TIME_SYNCED:OK" = true) :
    pyContains s "OK" = true := by
  have hp : "TIME_SYNCED:OK".data <+: s.data := of_decide_eq_true h
  have hi : "OK".data <:+: "TIME_SYNCED:OK".data := by decide
  exact decide_eq_true (hi.trans hp.isInfix)

/-- C1 (counterexample): a received line that begins with
TIME_SYNCED:ERR but also contains the substring OK later makes the
session return success, refuting the claim that any TIME_SYNCED:ERR
line yields failure regardless of the rest of the line. -/
theorem c1_counterexample :
    pyStartsWith "TIME_SYNCED:ERR OK" "TIME_SYNCED:ERR" = true
      ∧ sync_precise_time_to_arduino none cexClocks [Ev.line "TIME_SYNCED:ERR OK"] 2
          = SyncRun.done ⟨true, true, true, some "SYNC_TIME:2024,01,01,00,00,01\n"⟩ := by
  constructor
  · decide
  · decide

/-- C1 (amended): the first TIME_SYNCED:-prefixed line decides the
outcome by a substring search for OK, not by the ERR prefix: the
session returns failure exactly when the line contains no OK anywhere
(then it returns at once, never waiting for an RTC: line), and returns
success for every line beginning TIME_SYNCED:OK provided no exception
interrupts the RTC window. -/
theorem c1_confirmation_line_decision (f : Nat) (pre : List Ev) (s : String) (rest : List Ev)
    (hpre : ∀ e ∈ pre, inertEv e = true)
    (hs : pyStartsWith s "TIME_SYNCED:" = true) :
    (pyContains s "OK" = false →
      respLoopE f (pre ++ Ev.line s :: rest) = (Except.ok false, true)) ∧
    (pyStartsWith s "TIME_SYNCED:OK" = true → (∀ e ∈ rest, noExnEv e = true) →
      respLoopE f (pre ++ Ev.line s :: rest) = (Except.ok true, true)) := by
  rw [respLoopE_append_inert pre hpre]
  constructor
  · intro hok
    exact (respLoopE_first_line f s rest hs).1 hok
  · intro hok hrest
    exact (respLoopE_first_line f s rest hs).2 (contains_of_startsWith_ok s hok) hrest

/-- C1 witness: a plain TIME_SYNCED:ERR line after one quiet poll
yields failure with the port closed. -/
theorem c1_witness :
    respLoopE 2 ([Ev.quiet] ++ Ev.line "TIME_SYNCED:ERR" :: []) = (Except.ok false, true) :=
  (c1_confirmation_line_decision 2 [Ev.quiet] "TIME_SYNCED:ERR" [] (by decide) (by decide)).1
    (by decide)

/-- C2 (counterexample): an exception raised by the read during the
response wait is caught and the function returns with the serial
connection still open, refuting closure on every exit path. -/
theorem c2_counterexample :
    ∃ o, sync_precise_time_to_arduino none cexClocks [Ev.exn true "read error"] 2
        = SyncRun.done o
      ∧ o.opened = true ∧ o.closed = false := by
  exact ⟨⟨false, true, false, some "SYNC_TIME:2024,01,01,00,00,01\n"⟩, by decide, rfl, rfl⟩

/-- C2 (amended): on every exit path that raises no exception (success,
device-reported failure, timeout) the serial connection is closed
before the session returns; the caught-exception paths return failure
without closing it. -/
theorem c2_closes_without_exception (openFail : Option PyExn) (clocks : List PyDatetime)
    (evs : List Ev) (f : Nat) (h : ∀ e ∈ evs, noExnEv e = true) :
    ∀ o, sync_precise_time_to_arduino openFail clocks evs f = SyncRun.done o →
      o.opened = true → o.closed = true := by
  intro o hdone hopen
  cases openFail with
  | some e =>
    simp [sync_precise_time_to_arduino] at hdone
    rw [← hdone] at hopen
    simp at hopen
  | none =>
    cases hb : boundaryPoll clocks with
    | none => simp [sync_precise_time_to_arduino, hb] at hdone
    | some tr =>
      obtain ⟨b, hresp⟩ := respLoopE_ok_of_noExn f evs h
      simp [sync_precise_time_to_arduino, hb, hresp] at hdone
      rw [← hdone]

/-- C2 witness: a successful exception-free session has the closed
flag set. -/
theorem c2_witness :
    SyncOutcome.closed ⟨true, true, true, some "SYNC_TIME:2024,01,01,00,00,01\n"⟩ = true :=
  c2_closes_without_exception none cexClocks [Ev.line "TIME_SYNCED:OK"] 2 (by decide)
    ⟨true, true, true, some "SYNC_TIME:2024,01,01,00,00,01\n"⟩ (by decide) rfl

/-- C3 (counterexample): the inner polling loop exits as soon as a
reading has microsecond not above 100000, so the sampled boundary
timestamp can carry exactly 100000 microseconds, a sub-second fraction
of exactly 0.1 s, refuting the strict bound. -/
theorem c3_counterexample :
    ∃ t rest, boundaryPoll c3Clocks = some (t, rest) ∧ ¬(t.microsecond < 100000) := by
  exact ⟨⟨2024, 1, 1, 0, 0, 1, 100000⟩, [], by decide, by decide⟩

/-- C3 (amended): the inner polling loop only exits at a clock reading
whose sub-second fraction is at most 0.1 s (microsecond at most 100000,
the boundary value included); the timestamp used for the command is the
clock sample taken right after that exit, and the transmitted Time
Command is built from that sample plus exactly one second of calendar
time. -/
theorem c3_boundary_and_compensation :
    (∀ clocks e rest, innerWait clocks = some (e, rest) → e.microsecond ≤ 100000) ∧
    (∀ clocks evs f t rest o, boundaryPoll clocks = some (t, rest) →
      sync_precise_time_to_arduino none clocks evs f = SyncRun.done o →
      o.sent = some (timeCommand (addOneSecond t))) := by
  constructor
  · intro clocks
    induction clocks with
    | nil => intro e rest h; simp [innerWait] at h
    | cons d ds ih =>
      intro e rest h
      by_cases hd : d.microsecond > 100000
      · exact ih e rest (by simpa [innerWait, hd] using h)
      · have hde : d = e ∧ ds = rest := by simpa [innerWait, hd] using h
        rw [← hde.1]
        omega
  · intro clocks evs f t rest o hb hdone
    rcases hr : respLoopE f evs with ⟨r, closed⟩
    cases r with
    | ok b =>
      simp [sync_precise_time_to_arduino, hb, hr] at hdone
      rw [← hdone]
    | error e =>
      simp [sync_precise_time_to_arduino, hb, hr] at hdone
      rw [← hdone]

/-- C3 witness: a reading with 50 ms fraction exits the inner loop, and
a finished session reports the compensated command it wrote. -/
theorem c3_witness :
    PyDatetime.microsecond ⟨2024, 1, 1, 0, 0, 0, 50000⟩ ≤ 100000
      ∧ SyncOutcome.sent ⟨false, true, true, some "SYNC_TIME:2024,01,01,00,00,01\n"⟩
          = some (timeCommand (addOneSecond ⟨2024, 1, 1, 0, 0, 0, 50000⟩)) :=
  ⟨c3_boundary_and_compensation.1 [⟨2024, 1, 1, 0, 0, 0, 50000⟩] ⟨2024, 1, 1, 0, 0, 0, 50000⟩ []
      rfl,
   c3_boundary_and_compensation.2 cexClocks [] 2 ⟨2024, 1, 1, 0, 0, 0, 50000⟩ []
      ⟨false, true, true, some "SYNC_TIME:2024,01,01,00,00,01\n"⟩ (by decide) (by decide)⟩

/-- C4: auto-detection returns the device of the first port whose
combined uppercased device/description/manufacturer string contains an
uppercased identifier from the fixed list of seven, and returns none on
an empty list or when no port matches. -/
theorem c4_port_autodetect :
    (find_arduino_port [] = none) ∧
    (∀ ports, (∀ p ∈ ports, portMatches p = false) → find_arduino_port ports = none) ∧
    (∀ pre p rest, (∀ q ∈ pre, portMatches q = false) → portMatches p = true →
      find_arduino_port (pre ++ p :: rest) = some p.device) ∧
    (∀ p, portMatches p = true ↔
      ∃ ident ∈ arduino_identifiers, pyContains (port_info p) (pyUpper ident) = true) := by
  refine ⟨rfl, ?_, ?_, ?_⟩
  · intro ports
    induction ports with
    | nil => intro _; rfl
    | cons p rest ih =>
      intro h
      have hp := h p (List.mem_cons_self _ _)
      simp [find_arduino_port, hp]
      exact ih (fun q hq => h q (List.mem_cons_of_mem _ hq))
  · intro pre
    induction pre with
    | nil =>
      intro p rest _ hp
      simp [find_arduino_port, hp]
    | cons q qs ih =>
      intro p rest h hp
      have hq := h q (List.mem_cons_self _ _)
      simp only [List.cons_append, find_arduino_port, hq]
      simpa using ih p rest (fun x hx => h x (List.mem_cons_of_mem _ hx)) hp
  · intro p
    simp [portMatches, List.any_eq_true]

/-- A noise descriptor matching no identifier. -/
def noisePort : PortDesc := ⟨"/dev/ttyS0", "PCI Serial", none⟩

/-- A matching Arduino descriptor. -/
def unoPort : PortDesc := ⟨"/dev/ttyACM0", "Arduino Uno", some "Arduino LLC"⟩

/-- C4 witness: with a non-matching port first, detection returns the
device of the later matching port. -/
theorem c4_witness : find_arduino_port ([noisePort] ++ unoPort :: []) = some unoPort.device :=
  c4_port_autodetect.2.2.1 [noisePort] unoPort [] (by decide) (by decide)

lemma fmt02_eq_twoDigits : ∀ n, n < 100 → fmt02 n = twoDigits n := by decide

lemma twoDigits_length (n : Nat) : (twoDigits n).length = 2 := rfl

/-- C5: for a valid date-time the command is SYNC_TIME: then the year
in decimal, then month, day, hour, minute, second each as exactly two
decimal digits with zero padding, comma separated, ending in one
newline. -/
theorem c5_time_command_format (d : PyDatetime) (hm : d.month ≤ 12) (hd : d.day ≤ 31)
    (hh : d.hour ≤ 23) (hmi : d.minute ≤ 59) (hs : d.second ≤ 59) :
    timeCommand d = "SYNC_TIME:" ++ Nat.repr d.year ++ "," ++ twoDigits d.month ++ ","
        ++ twoDigits d.day ++ "," ++ twoDigits d.hour ++ "," ++ twoDigits d.minute ++ ","
        ++ twoDigits d.second ++ "\n"
      ∧ (twoDigits d.month).length = 2 ∧ (twoDigits d.day).length = 2
      ∧ (twoDigits d.hour).length = 2 ∧ (twoDigits d.minute).length = 2
      ∧ (twoDigits d.second).length = 2 := by
  refine ⟨?_, twoDigits_length _, twoDigits_length _, twoDigits_length _, twoDigits_length _,
    twoDigits_length _⟩
  unfold timeCommand
  rw [fmt02_eq_twoDigits d.month (by omega), fmt02_eq_twoDigits d.day (by omega),
    fmt02_eq_twoDigits d.hour (by omega), fmt02_eq_twoDigits d.minute (by omega),
    fmt02_eq_twoDigits d.second (by omega)]

/-- C5 witness: the command for 2024-03-07 04:05:09 in the exact
two-digit rendering. -/
theorem c5_witness :
    timeCommand ⟨2024, 3, 7, 4, 5, 9, 123⟩ = "SYNC_TIME:" ++ Nat.repr 2024 ++ ","
        ++ twoDigits 3 ++ "," ++ twoDigits 7 ++ "," ++ twoDigits 4 ++ "," ++ twoDigits 5 ++ ","
        ++ twoDigits 9 ++ "\n"
      ∧ (twoDigits 3).length = 2 ∧ (twoDigits 7).length = 2
      ∧ (twoDigits 4).length = 2 ∧ (twoDigits 5).length = 2
      ∧ (twoDigits 9).length = 2 :=
  c5_time_command_format ⟨2024, 3, 7, 4, 5, 9, 123⟩ (by decide) (by decide) (by decide)
    (by decide) (by decide)

/-- C6 (counterexample): after a TIME_SYNCED:OK confirmation, an
exception raised while reading inside the RTC window is caught and the
session returns failure, so the RTC-echo step can change the success
outcome. -/
theorem c6_counterexample :
    ∃ o, sync_precise_time_to_arduino none cexClocks
        [Ev.line "TIME_SYNCED:OK", Ev.exn true "read failed"] 2 = SyncRun.done o
      ∧ o.result = false := by
  exact ⟨⟨false, true, false, some "SYNC_TIME:2024,01,01,00,00,01\n"⟩, by decide, rfl⟩

/-- C6 (amended): once a TIME_SYNCED:OK confirmation is received, the
session returns success for every exception-free continuation, whether
or not a line beginning RTC: ever arrives in the 2-second window. -/
theorem c6_ok_best_effort_rtc (f : Nat) (rest : List Ev) (h : ∀ e ∈ rest, noExnEv e = true) :
    respLoopE f (Ev.line "TIME_SYNCED:OK" :: rest) = (Except.ok true, true) :=
  (respLoopE_first_line f "TIME_SYNCED:OK" rest (by decide)).2 (by decide) h

/-- C6 witness: success both with an RTC echo and with silence after
the confirmation. -/
theorem c6_witness :
    respLoopE 3 (Ev.line "TIME_SYNCED:OK" :: [Ev.line "RTC:2024-01-01 00:00:00"])
        = (Except.ok true, true)
      ∧ respLoopE 3 (Ev.line "TIME_SYNCED:OK" :: []) = (Except.ok true, true) :=
  ⟨c6_ok_best_effort_rtc 3 [Ev.line "RTC:2024-01-01 00:00:00"] (by decide),
   c6_ok_best_effort_rtc 3 [] (by decide)⟩

/-- C7: exit status 0 on list-ports and on successful sync; exit
status 1 when no port was given and auto-detection returns none, and
when the sync attempt fails. -/
theorem c7_exit_codes :
    (∀ portArg ports openFail clocks evs f,
      mainExitCode true portArg ports openFail clocks evs f = some 0) ∧
    (∀ ports openFail clocks evs f, find_arduino_port ports = none →
      mainExitCode false none ports openFail clocks evs f = some 1) ∧
    (∀ p ports openFail clocks evs f o, p ≠ "" →
      sync_precise_time_to_arduino openFail clocks evs f = SyncRun.done o → o.result = true →
      mainExitCode false (some p) ports openFail clocks evs f = some 0) ∧
    (∀ p ports openFail clocks evs f o, p ≠ "" →
      sync_precise_time_to_arduino openFail clocks evs f = SyncRun.done o → o.result = false →
      mainExitCode false (some p) ports openFail clocks evs f = some 1) := by
  refine ⟨?_, ?_, ?_, ?_⟩
  · intro portArg ports openFail clocks evs f
    rfl
  · intro ports openFail clocks evs f hfind
    simp [mainExitCode, strTruthy, hfind]
  · intro p ports openFail clocks evs f o hp hsync hres
    simp [mainExitCode, strTruthy, hp, hsync, hres]
  · intro p ports openFail clocks evs f o hp hsync hres
    simp [mainExitCode, strTruthy, hp, hsync, hres]

/-- C7 witness: the four exit paths at concrete inputs. -/
theorem c7_witness :
    mainExitCode true none [] none [] [] 0 = some 0
      ∧ mainExitCode false none [] none [] [] 0 = some 1
      ∧ mainExitCode false (some "COM3") [] none cexClocks [Ev.line "TIME_SYNCED:OK"] 2 = some 0
      ∧ mainExitCode false (some "COM3") [] none cexClocks [] 2 = some 1 :=
  ⟨c7_exit_codes.1 none [] none [] [] 0,
   c7_exit_codes.2.1 [] none [] [] 0 rfl,
   c7_exit_codes.2.2.1 "COM3" [] none cexClocks [Ev.line "TIME_SYNCED:OK"] 2
     ⟨true, true, true, some "SYNC_TIME:2024,01,01,00,00,01\n"⟩ (by decide) (by decide) rfl,
   c7_exit_codes.2.2.2 "COM3" [] none cexClocks [] 2
     ⟨false, true, true, some "SYNC_TIME:2024,01,01,00,00,01\n"⟩ (by decide) (by decide) rfl⟩

/-- C8: the session function is total over its inputs and both except
clauses convert a raised exception into a plain failed-sync return:
a failed open returns False, and an exception propagating out of the
response loop returns False. -/
theorem c8_exceptions_caught :
    (∀ e clocks evs f, sync_precise_time_to_arduino (some e) clocks evs f
        = SyncRun.done ⟨false, false, false, none⟩) ∧
    (∀ clocks evs f t rest e closed, boundaryPoll clocks = some (t, rest) →
      respLoopE f evs = (Except.error e, closed) →
      sync_precise_time_to_arduino none clocks evs f
        = SyncRun.done ⟨false, true, closed, some (timeCommand (addOneSecond t))⟩) := by
  constructor
  · intro e clocks evs f
    rfl
  · intro clocks evs f t rest e closed hb hresp
    simp [sync_precise_time_to_arduino, hb, hresp]

/-- C8 witness: a non-serial exception during the response wait yields
a finished run returning False. -/
theorem c8_witness :
    sync_precise_time_to_arduino none cexClocks [Ev.exn false "unexpected"] 2
      = SyncRun.done ⟨false, true, false,
          some (timeCommand (addOneSecond ⟨2024, 1, 1, 0, 0, 0, 50000⟩))⟩ :=
  c8_exceptions_caught.2 cexClocks [Ev.exn false "unexpected"] 2 ⟨2024, 1, 1, 0, 0, 0, 50000⟩ []
    (PyExn.otherExn "unexpected") false (by decide) rfl

/-- C9: a port descriptor with a missing manufacturer is handled
totally: the combined string is built with the empty string in place of
the manufacturer, and matching and detection behave exactly as for the
same port carrying an explicit empty manufacturer. -/
theorem c9_manufacturer_none (p : PortDesc) (h : p.manufacturer = none) :
    port_info p = pyUpper (p.device ++ " " ++ p.description ++ " ")
      ∧ portMatches p = portMatches ⟨p.device, p.description, some ""⟩
      ∧ ∀ rest, find_arduino_port (p :: rest)
          = if portMatches ⟨p.device, p.description, some ""⟩ then some p.device
            else find_arduino_port rest := by
  have h2 : port_info p = port_info ⟨p.device, p.description, some ""⟩ := by
    simp [port_info, h]
  have h3 : portMatches p = portMatches ⟨p.device, p.description, some ""⟩ := by
    simp [portMatches, h2]
  refine ⟨by simp [port_info, h], h3, ?_⟩
  intro rest
  simp only [find_arduino_port, h3]

/-- C9 witness: a Linux USB-serial port with no manufacturer string is
matched from its device path alone. -/
theorem c9_witness :
    find_arduino_port [(⟨"/dev/ttyUSB0", "USB2.0-Ser", none⟩ : PortDesc)]
      = if portMatches ⟨"/dev/ttyUSB0", "USB2.0-Ser", some ""⟩
        then some "/dev/ttyUSB0" else find_arduino_port [] :=
  (c9_manufacturer_none ⟨"/dev/ttyUSB0", "USB2.0-Ser", none⟩ rfl).2.2 []

/-- C10: the first TIME_SYNCED:-prefixed line fixes the outcome of the
session: the result equals the OK test on that line alone, and any two
exception-free continuations, whatever further TIME_SYNCED: lines they
carry, give the same result. -/
theorem c10_first_synced_only (f : Nat) (pre : List Ev) (s : String) (rest rest2 : List Ev)
    (hpre : ∀ e ∈ pre, inertEv e = true) (hs : pyStartsWith s "TIME_SYNCED:" = true)
    (h1 : ∀ e ∈ rest, noExnEv e = true) (h2 : ∀ e ∈ rest2, noExnEv e = true) :
    respLoopE f (pre ++ Ev.line s :: rest) = (Except.ok (pyContains s "OK"), true)
      ∧ respLoopE f (pre ++ Ev.line s :: rest)
          = respLoopE f (pre ++ Ev.line s :: rest2) := by
  have key : ∀ r, (∀ e ∈ r, noExnEv e = true) →
      respLoopE f (pre ++ Ev.line s :: r) = (Except.ok (pyContains s "OK"), true) := by
    intro r hr
    rw [respLoopE_append_inert pre hpre]
    cases hok : pyContains s "OK" with
    | false => exact (respLoopE_first_line f s r hs).1 hok
    | true => exact (respLoopE_first_line f s r hs).2 hok hr
  exact ⟨key rest h1, (key rest h1).trans (key rest2 h2).symm⟩

/-- C10 witness: a second TIME_SYNCED line after the first is ignored;
dropping it leaves the result unchanged. -/
theorem c10_witness :
    respLoopE 2 ([Ev.line "booting"] ++ Ev.line "TIME_SYNCED:ERR" :: [Ev.line "TIME_SYNCED:OK"])
        = (Except.ok (pyContains "TIME_SYNCED:ERR" "OK"), true)
      ∧ respLoopE 2 ([Ev.line "booting"] ++ Ev.line "TIME_SYNCED:ERR" :: [Ev.line "TIME_SYNCED:OK"])
          = respLoopE 2 ([Ev.line "booting"] ++ Ev.line "TIME_SYNCED:ERR" :: []) :=
  c10_first_synced_only 2 [Ev.line "booting"] "TIME_SYNCED:ERR" [Ev.line "TIME_SYNCED:OK"] []
    (by decide) (by decide) (by decide) (by decide)
